import Mathlib

/-!
Shallow embedding of `my_nyquist_calculator.py` (microscope Nyquist sampling
calculator) and verification of its specification claims.

Numeric values are modelled as exact rationals (`ℚ`); the Python decimal
literals 0.61, 1000.0, 0.1, 1.4, 0.2 are the rationals 61/100, 1000, 1/10,
7/5, 1/5. Python's scalar float division by zero, which raises
`ZeroDivisionError`, is modelled by an `Except`-valued variant of the
forward model.
-/

/-- Forward resolution model, from `opt_resolution` (src lines 12–20):
`wavelength_um = wavelength_nm / 1000.0`;
`resolution_um = 0.61 * wavelength_um / numerical_aperture`;
`total_mag = objective_mag * additional_mag`;
returns `resolution_um * total_mag`. -/
def opt_resolution (wavelength_nm objective_mag numerical_aperture additional_mag : ℚ) : ℚ :=
  let wavelength_um := wavelength_nm / 1000
  let resolution_um := 61 / 100 * wavelength_um / numerical_aperture
  let total_mag := objective_mag * additional_mag
  resolution_um * total_mag

/-- Scalar-semantics variant of `opt_resolution`: in Python, dividing a scalar
float by `0.0` raises `ZeroDivisionError` (it does not produce `inf`), so the
call fails when `numerical_aperture = 0`; otherwise it returns the value of
`opt_resolution`. -/
def opt_resolutionE (wavelength_nm objective_mag numerical_aperture additional_mag : ℚ) :
    Except String ℚ :=
  if numerical_aperture = 0 then Except.error "ZeroDivisionError"
  else Except.ok (opt_resolution wavelength_nm objective_mag numerical_aperture additional_mag)

/-- Inverse model, from `plot_nyquist_criterion` (src lines 22–29):
`num_aprt = 0.61/(ny_lim*1000) * wavelength_nm * objective_mag * additional_mag / pxl_ref`. -/
def plot_nyquist_criterion (wavelength_nm objective_mag additional_mag pxl_ref ny_lim : ℚ) : ℚ :=
  61 / 100 / (ny_lim * 1000) * wavelength_nm * objective_mag * additional_mag / pxl_ref

/-- Fixed overlay thresholds, from `ny_lim_lines = [2.0, 2.3, 3.0]` (src line 55),
hardcoded in the body of `plot_pxl_per_blurr`. -/
def ny_lim_lines : List ℚ := [2, 23 / 10, 3]

/-- Line styles chosen by `["-.","-","--"][ny_lim_lines.index(ny_lim)]` (src line 59). -/
def ny_lim_styles : List String := ["-.", "-", "--"]

/-- Legend labels produced by `r"$\phi$ = {}".format(ny_lim)` (src line 63)
for the three fixed thresholds. -/
def ny_lim_labels : List String := ["$\\phi$ = 2.0", "$\\phi$ = 2.3", "$\\phi$ = 3.0"]

/-- Python `min` over a list (defined on nonempty lists; `min([])` raises,
so callers of the renderer must pass nonempty axes). -/
def pyMin (l : List ℚ) : ℚ := l.foldl min (l.headD 0)

/-- Python `max` over a list (defined on nonempty lists). -/
def pyMax (l : List ℚ) : ℚ := l.foldl max (l.headD 0)

/-- One overlay reference line drawn by the `for ny_lim in ny_lim_lines` loop
(src lines 55–63): the iso-sampling curve for one threshold. -/
structure OverlayCurve where
  threshold : ℚ
  xs : List ℚ
  ys : List ℚ
  style : String
  curveLabel : String
  lw : ℚ
  alphaVal : ℚ
  color : String
deriving DecidableEq

/-- The observable content of the figure built by `plot_pxl_per_blurr`
(src lines 31–108): the numeric field handed to `imshow`, the `imshow`
keyword values, overlay curves, axis limits and the colorbar decorations. -/
structure RenderedFigure where
  Z : List (List ℚ)
  xscale : String
  yscale : String
  vmin : ℚ
  vmax : ℚ
  cmap : String
  extent : ℚ × ℚ × ℚ × ℚ
  ylim : ℚ × ℚ
  overlays : List OverlayCurve
  legend : Bool
  cbarHorizontal : Bool
  cbarTicks : List ℚ
  cbarTickLabels : List String
  cbarTexts : List (ℚ × ℚ × String)
  xlabel : String
  ylabel : String
deriving DecidableEq

/-- Renderer, from `plot_pxl_per_blurr` (src lines 31–108).
`np.meshgrid(magnification, num_aprt)` builds `x_mag[i][j] = magnification[j]`
and `y_na[i][j] = num_aprt[i]`, both of shape `(len(num_aprt), len(magnification))`;
`opt_resolution(wavelength_nm, x_mag, y_na, additional_mag) / pxl_ref` is
elementwise, and the `reshape(len(num_aprt), len(magnification))` is the
identity on that shape, so row `i`, column `j` of `Z` is
`opt_resolution(wavelength_nm, magnification[j], num_aprt[i], additional_mag) / pxl_ref`.
The `imshow` call fixes `vmin=0, vmax=4`, `cmap="rainbow_r"` and
`extent=[min(mag), max(mag), min(na), max(na)]`; the loop draws one overlay
line per entry of `ny_lim_lines` with `linewidth=1`, `alpha=0.2`,
`color='black'`; `ax.set_ylim(0.1, 1.4)` fixes the y display limits; the
colorbar is horizontal with ticks `[0,1,2,3,4]`, tick labels
`["0","1","2","3",">4"]` and two `cbar.ax.text` annotations at axes
coordinates `(0.1, -1.5)` and `(0.9, -1.5)`. -/
def plot_pxl_per_blurr (magnification num_aprt : List ℚ)
    (wavelength_nm pxl_ref additional_mag : ℚ) (xscale yscale : String) :
    RenderedFigure :=
  let Z := num_aprt.map (fun na =>
    magnification.map (fun m => opt_resolution wavelength_nm m na additional_mag / pxl_ref))
  let overlays := (ny_lim_lines.zip (ny_lim_styles.zip ny_lim_labels)).map (fun tsl =>
    { threshold := tsl.1
      xs := magnification
      ys := magnification.map (fun m =>
        plot_nyquist_criterion wavelength_nm m additional_mag pxl_ref tsl.1)
      style := tsl.2.1
      curveLabel := tsl.2.2
      lw := 1
      alphaVal := 1 / 5
      color := "black" })
  { Z := Z
    xscale := xscale
    yscale := yscale
    vmin := 0
    vmax := 4
    cmap := "rainbow_r"
    extent := (pyMin magnification, pyMax magnification, pyMin num_aprt, pyMax num_aprt)
    ylim := (1 / 10, 7 / 5)
    overlays := overlays
    legend := true
    cbarHorizontal := true
    cbarTicks := [0, 1, 2, 3, 4]
    cbarTickLabels := ["0", "1", "2", "3", ">4"]
    cbarTexts := [(1 / 10, -3 / 2, "Undersampling"), (9 / 10, -3 / 2, "Oversampling")]
    xlabel := "Magnification M"
    ylabel := "Numerical Aperture N.A." }

/-- Modelled from the spec: the color-mapping step of matplotlib's `imshow`
with explicit `vmin`/`vmax` (library behaviour, not part of this repository's
source): a value is affinely normalized by `(v - vmin) / (vmax - vmin)` and
clipped to `[0, 1]` before the colormap lookup, so values below `vmin` or
above `vmax` saturate at the scale endpoints. -/
def colorNorm (vmin vmax v : ℚ) : ℚ := max 0 (min 1 ((v - vmin) / (vmax - vmin)))

/-- Claim C1: for positive wavelength, objective magnification, numerical
aperture and additional magnification, `opt_resolution` returns exactly
`0.61 * (λ/1000) / NA * M * A`. -/
theorem opt_resolution_closed_form (l M NA A : ℚ)
    (hl : 0 < l) (hM : 0 < M) (hNA : 0 < NA) (hA : 0 < A) :
    opt_resolution l M NA A = 61 / 100 * (l / 1000) / NA * M * A := by
  unfold opt_resolution
  ring

/-- Witness for C1 at λ=500, M=40, NA=0.95, A=1. -/
theorem opt_resolution_closed_form_witness :
    opt_resolution 500 40 (19 / 20) 1 = 61 / 100 * (500 / 1000) / (19 / 20) * 40 * 1 :=
  opt_resolution_closed_form 500 40 (19 / 20) 1 (by norm_num) (by norm_num) (by norm_num)
    (by norm_num)

/-- Claim C2: for positive wavelength, objective magnification, additional
magnification, reference pixel size and target factor φ,
`plot_nyquist_criterion` returns exactly `0.61 * λ / (φ * 1000) * M * A / p`. -/
theorem plot_nyquist_criterion_closed_form (l M A p phi : ℚ)
    (hl : 0 < l) (hM : 0 < M) (hA : 0 < A) (hp : 0 < p) (hphi : 0 < phi) :
    plot_nyquist_criterion l M A p phi = 61 / 100 * l / (phi * 1000) * M * A / p := by
  unfold plot_nyquist_criterion
  ring

/-- Witness for C2 at λ=500, M=20, A=1, p=6.5, φ=2.3. -/
theorem plot_nyquist_criterion_closed_form_witness :
    plot_nyquist_criterion 500 20 1 (13 / 2) (23 / 10) =
      61 / 100 * 500 / (23 / 10 * 1000) * 20 * 1 / (13 / 2) :=
  plot_nyquist_criterion_closed_form 500 20 1 (13 / 2) (23 / 10) (by norm_num) (by norm_num)
    (by norm_num) (by norm_num) (by norm_num)

/-- Claim C3: round-trip law — feeding the inverse model's output back into
the forward model and dividing by the reference pixel size recovers the
target oversampling factor φ. -/
theorem roundtrip_inverse_forward (l M A p phi : ℚ)
    (hl : 0 < l) (hM : 0 < M) (hA : 0 < A) (hp : 0 < p) (hphi : 0 < phi) :
    opt_resolution l M (plot_nyquist_criterion l M A p phi) A / p = phi := by
  unfold opt_resolution plot_nyquist_criterion
  field_simp
  ring

/-- Witness for C3 at λ=500, M=20, A=1, p=6.5, φ=2.3. -/
theorem roundtrip_inverse_forward_witness :
    opt_resolution 500 20 (plot_nyquist_criterion 500 20 1 (13 / 2) (23 / 10)) 1 / (13 / 2) =
      23 / 10 :=
  roundtrip_inverse_forward 500 20 1 (13 / 2) (23 / 10) (by norm_num) (by norm_num)
    (by norm_num) (by norm_num) (by norm_num)

/-- Claim C4: for non-empty axes the numeric field `Z` has shape
`(len(na_axis), len(magnification_axis))`, its entry at row `i`, column `j`
is `opt_resolution(λ, magnification[j], na[i], A) / pixel_ref`, and the
field is identical for every choice of the scale selectors. -/
theorem sampling_field_shape_entries_scale_indep (mag na : List ℚ) (l p A : ℚ)
    (xsc ysc xsc2 ysc2 : String) (hm : mag ≠ []) (hn : na ≠ []) :
    (plot_pxl_per_blurr mag na l p A xsc ysc).Z.length = na.length ∧
    (∀ row ∈ (plot_pxl_per_blurr mag na l p A xsc ysc).Z, row.length = mag.length) ∧
    (∀ i j, i < na.length → j < mag.length →
      ((plot_pxl_per_blurr mag na l p A xsc ysc).Z.getD i []).getD j 0 =
        opt_resolution l (mag.getD j 0) (na.getD i 0) A / p) ∧
    (plot_pxl_per_blurr mag na l p A xsc ysc).Z =
      (plot_pxl_per_blurr mag na l p A xsc2 ysc2).Z := by
  refine ⟨by simp [plot_pxl_per_blurr], ?_, ?_, rfl⟩
  · intro row hrow
    simp only [plot_pxl_per_blurr, List.mem_map] at hrow
    obtain ⟨x, _, hx⟩ := hrow
    simp [← hx]
  · intro i j hi hj
    simp [plot_pxl_per_blurr, List.getD_eq_getElem?_getD, List.getElem?_map,
      List.getElem?_eq_getElem, hi, hj]

/-- Witness for C4 at mag = [10, 20], na = [1/2, 1], λ = 500, p = 6.5, A = 1,
scale selectors "log"/"lin" versus "linear"/"log". -/
theorem sampling_field_shape_entries_scale_indep_witness :
    (plot_pxl_per_blurr [10, 20] [1 / 2, 1] 500 (13 / 2) 1 "log" "lin").Z.length = 2 ∧
    ((plot_pxl_per_blurr [10, 20] [1 / 2, 1] 500 (13 / 2) 1 "log" "lin").Z.getD 0 []).getD 1 0 =
      opt_resolution 500 20 (1 / 2) 1 / (13 / 2) ∧
    (plot_pxl_per_blurr [10, 20] [1 / 2, 1] 500 (13 / 2) 1 "log" "lin").Z =
      (plot_pxl_per_blurr [10, 20] [1 / 2, 1] 500 (13 / 2) 1 "linear" "log").Z := by
  have h := sampling_field_shape_entries_scale_indep [10, 20] [1 / 2, 1] 500 (13 / 2) 1
    "log" "lin" "linear" "log" (by simp) (by simp)
  exact ⟨h.1, h.2.2.1 0 1 (by norm_num) (by norm_num), h.2.2.2⟩

/-- Claim C5: with the other parameters held fixed and positive,
`opt_resolution` is strictly increasing in wavelength, objective
magnification and additional magnification, and strictly decreasing in
numerical aperture. -/
theorem opt_resolution_strict_monotone (l M NA A : ℚ)
    (hl : 0 < l) (hM : 0 < M) (hNA : 0 < NA) (hA : 0 < A) :
    (∀ l2, l < l2 → opt_resolution l M NA A < opt_resolution l2 M NA A) ∧
    (∀ M2, M < M2 → opt_resolution l M NA A < opt_resolution l M2 NA A) ∧
    (∀ A2, A < A2 → opt_resolution l M NA A < opt_resolution l M NA A2) ∧
    (∀ NA2, NA < NA2 → opt_resolution l M NA2 A < opt_resolution l M NA A) := by
  have key : ∀ x m n a : ℚ, n ≠ 0 →
      opt_resolution x m n a = 61 * x * m * a / (100000 * n) := by
    intro x m n a hn
    unfold opt_resolution
    field_simp
    ring
  refine ⟨?_, ?_, ?_, ?_⟩
  · intro l2 h
    rw [key l M NA A hNA.ne', key l2 M NA A hNA.ne',
      div_lt_div_right (by positivity)]
    nlinarith [mul_pos (mul_pos (sub_pos.mpr h) hM) hA]
  · intro M2 h
    rw [key l M NA A hNA.ne', key l M2 NA A hNA.ne',
      div_lt_div_right (by positivity)]
    nlinarith [mul_pos (mul_pos (sub_pos.mpr h) hl) hA]
  · intro A2 h
    rw [key l M NA A hNA.ne', key l M NA A2 hNA.ne',
      div_lt_div_right (by positivity)]
    nlinarith [mul_pos (mul_pos (sub_pos.mpr h) hl) hM]
  · intro NA2 h
    have hNA2 : 0 < NA2 := hNA.trans h
    rw [key l M NA A hNA.ne', key l M NA2 A hNA2.ne',
      div_lt_div_left (by positivity) (by positivity) (by positivity)]
    nlinarith [h]

/-- Witness for C5 at λ=500, M=40, NA=0.95, A=1, perturbing each parameter. -/
theorem opt_resolution_strict_monotone_witness :
    opt_resolution 500 40 (19 / 20) 1 < opt_resolution 600 40 (19 / 20) 1 ∧
    opt_resolution 500 40 (19 / 20) 1 < opt_resolution 500 60 (19 / 20) 1 ∧
    opt_resolution 500 40 (19 / 20) 1 < opt_resolution 500 40 (19 / 20) 2 ∧
    opt_resolution 500 40 (11 / 10) 1 < opt_resolution 500 40 (19 / 20) 1 := by
  have h := opt_resolution_strict_monotone 500 40 (19 / 20) 1 (by norm_num) (by norm_num)
    (by norm_num) (by norm_num)
  exact ⟨h.1 600 (by norm_num), h.2.1 60 (by norm_num), h.2.2.1 2 (by norm_num),
    h.2.2.2 (11 / 10) (by norm_num)⟩

/-- Any value at or below the bottom of the fixed scale normalizes to the
same color coordinate as the value 0. -/
lemma colorNorm_saturates_low (v : ℚ) (hv : v ≤ 0) : colorNorm 0 4 v = colorNorm 0 4 0 := by
  unfold colorNorm
  have h1 : (v - 0) / (4 - 0) ≤ 0 := by
    apply div_nonpos_of_nonpos_of_nonneg <;> norm_num [hv]
  rw [min_eq_right (h1.trans (by norm_num)), max_eq_left h1]
  norm_num

/-- Any value at or above the top of the fixed scale normalizes to the same
color coordinate as the value 4. -/
lemma colorNorm_saturates_high (v : ℚ) (hv : 4 ≤ v) : colorNorm 0 4 v = colorNorm 0 4 4 := by
  unfold colorNorm
  have h1 : (1 : ℚ) ≤ (v - 0) / (4 - 0) := by
    rw [le_div_iff (by norm_num)]
    linarith
  rw [min_eq_left h1]
  norm_num

/-- Claim C6: every render fixes the color scale to `vmin = 0`, `vmax = 4`,
and under the (spec-modelled) clipping normalization every field value at or
below 0 maps to the same color coordinate as 0 and every value at or above 4
maps to the same color coordinate as 4. -/
theorem render_color_scale_saturation (mag na : List ℚ) (l p A : ℚ) (xsc ysc : String) :
    (plot_pxl_per_blurr mag na l p A xsc ysc).vmin = 0 ∧
    (plot_pxl_per_blurr mag na l p A xsc ysc).vmax = 4 ∧
    (∀ v : ℚ, v ≤ 0 →
      colorNorm (plot_pxl_per_blurr mag na l p A xsc ysc).vmin
          (plot_pxl_per_blurr mag na l p A xsc ysc).vmax v =
        colorNorm (plot_pxl_per_blurr mag na l p A xsc ysc).vmin
          (plot_pxl_per_blurr mag na l p A xsc ysc).vmax 0) ∧
    (∀ v : ℚ, 4 ≤ v →
      colorNorm (plot_pxl_per_blurr mag na l p A xsc ysc).vmin
          (plot_pxl_per_blurr mag na l p A xsc ysc).vmax v =
        colorNorm (plot_pxl_per_blurr mag na l p A xsc ysc).vmin
          (plot_pxl_per_blurr mag na l p A xsc ysc).vmax 4) := by
  exact ⟨rfl, rfl, fun v hv => colorNorm_saturates_low v hv,
    fun v hv => colorNorm_saturates_high v hv⟩

/-- Witness for C6 at a concrete render, with field values −1 and 5. -/
theorem render_color_scale_saturation_witness :
    (plot_pxl_per_blurr [10] [1 / 2] 500 (13 / 2) 1 "log" "lin").vmin = 0 ∧
    colorNorm 0 4 (-1) = colorNorm 0 4 0 ∧ colorNorm 0 4 5 = colorNorm 0 4 4 := by
  have h := render_color_scale_saturation [10] [1 / 2] 500 (13 / 2) 1 "log" "lin"
  exact ⟨h.1, h.2.2.1 (-1) (by norm_num), h.2.2.2 5 (by norm_num)⟩

/-- Counterexample for C7: the renderer accepts no thresholds argument — no
call of `plot_pxl_per_blurr`, over all of its inputs, yields overlay curves
for any threshold set other than the hardcoded `[2.0, 2.3, 3.0]`. -/
theorem overlay_thresholds_not_configurable :
    ¬ ∃ (mag na : List ℚ) (l p A : ℚ) (xsc ysc : String),
      (plot_pxl_per_blurr mag na l p A xsc ysc).overlays.map OverlayCurve.threshold ≠
        [2, 23 / 10, 3] := by
  rintro ⟨mag, na, l, p, A, xsc, ysc, h⟩
  exact h rfl

/-- Claim C7 (amended): the thresholds are the fixed, hardcoded list
`[2.0, 2.3, 3.0]` (not caller-configurable); for each one the renderer
computes the inverse-model curve NA(M) at every point of the magnification
axis and overlays it as a thin (linewidth 1, alpha 0.2) black line with dash
patterns `-.`, `-`, `--` respectively and a legend entry `φ = <value>`. -/
theorem overlay_curves_fixed_thresholds (mag na : List ℚ) (l p A : ℚ) (xsc ysc : String) :
    (plot_pxl_per_blurr mag na l p A xsc ysc).overlays =
      [{ threshold := 2, xs := mag,
         ys := mag.map (fun m => plot_nyquist_criterion l m A p 2),
         style := "-.", curveLabel := "$\\phi$ = 2.0", lw := 1, alphaVal := 1 / 5,
         color := "black" },
       { threshold := 23 / 10, xs := mag,
         ys := mag.map (fun m => plot_nyquist_criterion l m A p (23 / 10)),
         style := "-", curveLabel := "$\\phi$ = 2.3", lw := 1, alphaVal := 1 / 5,
         color := "black" },
       { threshold := 3, xs := mag,
         ys := mag.map (fun m => plot_nyquist_criterion l m A p 3),
         style := "--", curveLabel := "$\\phi$ = 3.0", lw := 1, alphaVal := 1 / 5,
         color := "black" }] ∧
    (plot_pxl_per_blurr mag na l p A xsc ysc).legend = true := ⟨rfl, rfl⟩

/-- Counterexample for C8: at a concrete render call, the complete set of
colorbar text annotations is exactly "Undersampling" and "Oversampling" —
in particular no annotation marks the value-2 tick as the Nyquist point. -/
theorem colorbar_no_nyquist_mark_cex :
    ((plot_pxl_per_blurr [10] [1 / 2] 500 (13 / 2) 1 "log" "lin").cbarTexts.map
      (fun t => t.2.2)) = ["Undersampling", "Oversampling"] ∧
    "Nyquist" ∉ ((plot_pxl_per_blurr [10] [1 / 2] 500 (13 / 2) 1 "log" "lin").cbarTexts.map
      (fun t => t.2.2)) := by
  refine ⟨rfl, ?_⟩
  decide

/-- Claim C8 (amended): the colorbar is horizontal with ticks at the values
0, 1, 2, 3, 4, tick labels `0`, `1`, `2`, `3`, `>4`, the 0 end labeled
"Undersampling" and the 4 end labeled "Oversampling"; no tick is annotated
as the Nyquist point. -/
theorem colorbar_ticks_and_texts (mag na : List ℚ) (l p A : ℚ) (xsc ysc : String) :
    (plot_pxl_per_blurr mag na l p A xsc ysc).cbarHorizontal = true ∧
    (plot_pxl_per_blurr mag na l p A xsc ysc).cbarTicks = [0, 1, 2, 3, 4] ∧
    (plot_pxl_per_blurr mag na l p A xsc ysc).cbarTickLabels = ["0", "1", "2", "3", ">4"] ∧
    (plot_pxl_per_blurr mag na l p A xsc ysc).cbarTexts =
      [(1 / 10, -3 / 2, "Undersampling"), (9 / 10, -3 / 2, "Oversampling")] :=
  ⟨rfl, rfl, rfl, rfl⟩

/-- Counterexample for C9: under Python scalar-float semantics, calling
`opt_resolution` with `numerical_aperture = 0` raises `ZeroDivisionError`
(at λ=500, M=40, A=1); it does not return a value such as inf or nan. -/
theorem opt_resolution_zero_na_raises_cex :
    opt_resolutionE 500 40 0 1 = Except.error "ZeroDivisionError" := rfl

/-- Claim C9 (amended): for every wavelength, magnification and additional
magnification, a scalar call of `opt_resolution` with `numerical_aperture = 0`
raises `ZeroDivisionError` rather than returning inf/nan (only the
NumPy-array path used by the renderer propagates inf), and the renderer's
color-mapping step clips any out-of-scale value to the fixed [0, 4] scale
endpoints rather than crashing. -/
theorem opt_resolution_zero_na_behavior (l M A : ℚ) :
    opt_resolutionE l M 0 A = Except.error "ZeroDivisionError" ∧
    (∀ v : ℚ, v ≤ 0 → colorNorm 0 4 v = colorNorm 0 4 0) ∧
    (∀ v : ℚ, 4 ≤ v → colorNorm 0 4 v = colorNorm 0 4 4) := by
  refine ⟨by simp [opt_resolutionE], fun v hv => colorNorm_saturates_low v hv,
    fun v hv => colorNorm_saturates_high v hv⟩

/-- Witness for C9 at λ=500, M=40, A=1 and out-of-scale values −2 and 6. -/
theorem opt_resolution_zero_na_behavior_witness :
    opt_resolutionE 500 40 0 1 = Except.error "ZeroDivisionError" ∧
    colorNorm 0 4 (-2) = colorNorm 0 4 0 ∧ colorNorm 0 4 6 = colorNorm 0 4 4 := by
  have h := opt_resolution_zero_na_behavior 500 40 1
  exact ⟨h.1, h.2.1 (-2) (by norm_num), h.2.2 6 (by norm_num)⟩

/-- Claim C10: for non-empty axes the figure's y-axis display limits are
fixed to exactly (0.1, 1.4) independently of the NA axis, even though the
image extent is taken from the min and max of the supplied axes, and the
field still has one row per NA value. -/
theorem ylim_fixed_despite_extent (mag na : List ℚ) (l p A : ℚ) (xsc ysc : String)
    (hm : mag ≠ []) (hn : na ≠ []) :
    (plot_pxl_per_blurr mag na l p A xsc ysc).ylim = (1 / 10, 7 / 5) ∧
    (plot_pxl_per_blurr mag na l p A xsc ysc).extent =
      (pyMin mag, pyMax mag, pyMin na, pyMax na) ∧
    (plot_pxl_per_blurr mag na l p A xsc ysc).Z.length = na.length :=
  ⟨rfl, rfl, by simp [plot_pxl_per_blurr]⟩

/-- Witness for C10 with an NA axis reaching outside [0.1, 1.4]: the extent
follows the axis (0.05 to 1.6) while the display limits stay (0.1, 1.4). -/
theorem ylim_fixed_despite_extent_witness :
    (plot_pxl_per_blurr [1, 101] [1 / 20, 8 / 5] 500 (13 / 2) 1 "log" "lin").ylim =
      (1 / 10, 7 / 5) ∧
    (plot_pxl_per_blurr [1, 101] [1 / 20, 8 / 5] 500 (13 / 2) 1 "log" "lin").extent =
      (1, 101, 1 / 20, 8 / 5) := by
  have h := ylim_fixed_despite_extent [1, 101] [1 / 20, 8 / 5] 500 (13 / 2) 1 "log" "lin"
    (by simp) (by simp)
  refine ⟨h.1, ?_⟩
  rw [h.2.1]
  norm_num [pyMin, pyMax]
